import Mathlib

/-!
Shallow embedding of the packaging-evaluation orchestrator
(`src/packaging_evaluation/state.py`, `tools.py`, `graph.py`, `src/web/api.py`).

Collaborator (LLM) calls are modelled as explicit arguments: each handler that
performs a `structured_llm.ainvoke` call receives an `Option` of the structured
artifact it would parse; `none` models the call raising an exception.  Python
mutates the state object in place, so a handler that raises after mutating
leaves the mutation visible to the caller; we model a handler run as a
`StepResult` whose `err` constructor carries the state object as it stands at
the moment the exception escapes the handler.
-/

namespace PackagingEval

/-- Component of the packaging concept (`state.py`, class `Component`). -/
structure Component where
  name : String
  material : String
  function : String
  requirements : List String
deriving DecidableEq

/-- Assessment details for a single component (`state.py`, class
`ComponentAssessment`).  `technical_score` is a float the orchestrator only
carries and never computes with; its value is represented as a rational. -/
structure ComponentAssessment where
  component_name : String
  feasible : Bool
  notes : String
  challenges : List String
  technical_score : Rat
deriving DecidableEq

/-- Technical feasibility assessment (`state.py`, class `TechnicalAssessment`). -/
structure TechnicalAssessment where
  overall_feasible : Bool
  component_assessments : List ComponentAssessment
  technical_summary : String
deriving DecidableEq

/-- Operational impact assessment (`state.py`, class `OperationalAssessment`). -/
structure OperationalAssessment where
  supply_chain_impact : String
  production_changes_needed : List String
  cost_impact : String
  overall_feasible : Bool
  operational_summary : String
deriving DecidableEq

/-- Reflection on assessments (`state.py`, class `ReflectionNotes`). -/
structure ReflectionNotes where
  blind_spots : List String
  questions : List String
  requires_iteration : Bool
  reflection_summary : String
  assessment_approved : Bool
  iteration_count : Int
deriving DecidableEq

/-- A specific improvement recommendation (`state.py`, class
`ImprovementRecommendation`). -/
structure ImprovementRecommendation where
  area : String
  recommendation : String
deriving DecidableEq

/-- Final evaluation and recommendations (`state.py`, class `FinalEvaluation`). -/
structure FinalEvaluation where
  feasibility_score : Int
  feasibility_summary : String
  expert_rationale : String
  key_strengths : List String
  key_challenges : List String
  improvement_recommendations : List ImprovementRecommendation
  go_decision : Bool
  action_items : List String
  executive_summary : String
deriving DecidableEq

/-- Analysis of packaging concept images (`state.py`, class `ImageAnalysis`). -/
structure ImageAnalysis where
  observations : List String
  identified_components : List String
  materials_detected : List String
  design_features : List String
  analysis_summary : String
deriving DecidableEq

/-- User feedback on component and material assumptions (`state.py`, class
`UserFeedback`). -/
structure UserFeedback where
  is_correct : Bool
  feedback_notes : List String
  suggested_changes : List String
deriving DecidableEq

/-- One entry of the message log (`state.py` stores
`\x7b"agent": ..., "content": ...\x7d` dicts in `messages`). -/
structure Message where
  agent : String
  content : String
deriving DecidableEq

/-- State for the packaging evaluation process (`state.py`, class
`PackagingEvaluationState`).  The Python class-body default
`current_node: str = "image_analyzer" if concept_images else "concept_breaker"`
is evaluated once, when the class body runs, against the class attribute
`concept_images` — a pydantic `FieldInfo` object, which is truthy — so the
default value of `current_node` is unconditionally `"image_analyzer"`,
whatever `concept_images` the instance is constructed with. -/
structure PackagingEvaluationState where
  packaging_concept : String
  concept_images : List String := []
  components : List Component := []
  image_analysis : Option ImageAnalysis := none
  technical_assessment : Option TechnicalAssessment := none
  operational_assessment : Option OperationalAssessment := none
  reflection_notes : Option ReflectionNotes := none
  final_evaluation : Option FinalEvaluation := none
  evaluation_score : Option Rat := none
  final_recommendation : String := ""
  current_node : String := "image_analyzer"
  process_complete : Bool := false
  messages : List Message := []
  reflection_counter : Nat := 0
  user_feedback : Option UserFeedback := none
  feedback_iteration : Nat := 0
  awaiting_human_input : Bool := false
deriving DecidableEq

/-- `PackagingEvaluationState.add_message` (`state.py`): appends one entry to
the conversation history. -/
def PackagingEvaluationState.add_message (s : PackagingEvaluationState)
    (agent content : String) : PackagingEvaluationState :=
  { s with messages := s.messages ++ [⟨agent, content⟩] }

/-- Construction of the initial record as done by `evaluate_packaging`
(`api.py` lines 43–46): only `packaging_concept` and `concept_images` are
supplied, every other field takes its class default — in particular
`current_node` defaults to `"image_analyzer"` (see the note on
`PackagingEvaluationState`). -/
def mkState (packaging_concept : String) (concept_images : List String) :
    PackagingEvaluationState :=
  { packaging_concept := packaging_concept, concept_images := concept_images }

/-- Result of running one handler.  `ok` is a normal return; `err` models a
Python exception escaping the handler, carrying the state object as it stands
at that moment (in-place mutations performed before the raise are visible). -/
inductive StepResult where
  | ok (s : PackagingEvaluationState)
  | err (s : PackagingEvaluationState)
deriving DecidableEq

/-- The state object as the caller observes it after the handler run, whether
the handler returned normally or raised. -/
def resultState : StepResult → PackagingEvaluationState
  | .ok s => s
  | .err s => s

/-- Whether the handler returned normally. -/
def StepResult.isOk : StepResult → Bool
  | .ok _ => true
  | .err _ => false

/-- Python `str` of a `bool`. -/
def pyBool (b : Bool) : String := if b then "True" else "False"

/-- `image_analysis` (`tools.py` lines 26–100).  With no concept images the
handler sets `current_node` and returns at once — no message is appended and
no collaborator is called.  Otherwise the single collaborator call returns an
`ImageAnalysis` (or raises, modelled by `none`); nothing is mutated before
that call. -/
def image_analysis (s : PackagingEvaluationState) (collab : Option ImageAnalysis) :
    StepResult :=
  if s.concept_images = [] then
    .ok { s with current_node := "concept_breaker" }
  else
    match collab with
    | none => .err s
    | some analysis =>
      let s1 := { s with image_analysis := some analysis }
      let s2 := s1.add_message "image_analyzer"
        ("Image analysis complete. Identified " ++
          toString analysis.identified_components.length ++ " components. " ++
          analysis.analysis_summary)
      .ok { s2 with current_node := "concept_breaker" }

/-- `concept_breaker` (`tools.py` lines 102–161). -/
def concept_breaker (s : PackagingEvaluationState) (collab : Option (List Component)) :
    StepResult :=
  match collab with
  | none => .err s
  | some comps =>
    let s1 := { s with components := comps }
    let s2 := s1.add_message "concept_breaker"
      ("Concept breakdown complete. Identified " ++ toString comps.length ++
        " components.")
    .ok { s2 with current_node := "human_feedback" }

/-- `human_feedback` (`tools.py` lines 163–203).  No collaborator is called.
With no feedback recorded, the handler appends the feedback-request prompt,
sets `awaiting_human_input := true` and stays on itself; with feedback
present it routes to `process_feedback` — and changes nothing else: in
particular `awaiting_human_input` is not touched (no line of the repository
ever resets it to `False`). -/
def human_feedback (s : PackagingEvaluationState) : StepResult :=
  match s.user_feedback with
  | none =>
    let components_summary := String.intercalate "\n"
      (s.components.map (fun c =>
        "- Component: " ++ c.name ++ "\n  Material: " ++ c.material ++
        "\n  Function: " ++ c.function ++ "\n  Requirements: " ++
        String.intercalate ", " c.requirements))
    let feedback_prompt :=
      "\nPlease review the component breakdown:\n\n" ++ components_summary ++
      "\n\nPlease provide feedback on:\n" ++
      "1. Are the component identifications correct? (yes/no)\n" ++
      "2. Are the material assumptions accurate? (yes/no)\n" ++
      "3. Any suggested changes or improvements? (list specific changes)\n\n" ++
      "Please provide your feedback in the following format:\n" ++
      "is_correct: [yes/no]\n" ++
      "feedback_notes: [your notes]\n" ++
      "suggested_changes: [list of specific changes]\n"
    let s1 := s.add_message "human_feedback" feedback_prompt
    .ok { s1 with awaiting_human_input := true, current_node := "human_feedback" }
  | some _ =>
    .ok { s with current_node := "process_feedback" }

/-- `process_feedback` (`tools.py` lines 205–228).  Raises `ValueError` when
`user_feedback` is absent (before any mutation); otherwise logs, routes on
`is_correct` (accept → `technical_feasibility`, reject → `concept_breaker`)
and clears `user_feedback`. -/
def process_feedback (s : PackagingEvaluationState) : StepResult :=
  match s.user_feedback with
  | none => .err s
  | some fb =>
    let s1 := s.add_message "feedback_processor"
      ("Processing feedback. " ++
        (if !fb.is_correct then "Changes requested" else "Components confirmed correct"))
    if fb.is_correct then
      let s2 := { s1 with current_node := "technical_feasibility" }
      .ok { s2 with user_feedback := none }
    else
      let s2 := s1.add_message "feedback_processor"
        ("Adjusting components based on feedback: " ++
          String.intercalate ", " fb.suggested_changes)
      let s3 := { s2 with current_node := "concept_breaker" }
      .ok { s3 with user_feedback := none }

/-- `technical_feasibility` (`tools.py` lines 230–285).  Nothing is mutated
before the single collaborator call. -/
def technical_feasibility (s : PackagingEvaluationState)
    (collab : Option TechnicalAssessment) : StepResult :=
  match collab with
  | none => .err s
  | some assessment =>
    let s1 := { s with technical_assessment := some assessment }
    let s2 := s1.add_message "technical_feasibility"
      ("Technical feasibility assessment complete. Overall feasibility: " ++
        pyBool assessment.overall_feasible)
    .ok { s2 with current_node := "operations" }

/-- `operations` (`tools.py` lines 287–350).  Nothing is mutated before the
single collaborator call. -/
def operations (s : PackagingEvaluationState)
    (collab : Option OperationalAssessment) : StepResult :=
  match collab with
  | none => .err s
  | some assessment =>
    let s1 := { s with operational_assessment := some assessment }
    let s2 := s1.add_message "operations"
      ("Operational impact assessment complete. Overall feasibility: " ++
        pyBool assessment.overall_feasible)
    .ok { s2 with current_node := "reflection" }

/-- `reflection` (`tools.py` lines 352–427).  The counter is incremented
first, as an in-place mutation; at the ceiling the handler routes to
`final_score` without any collaborator call; below it the collaborator is
consulted (a raise leaves the already-incremented counter visible). -/
def reflection (s : PackagingEvaluationState) (collab : Option ReflectionNotes) :
    StepResult :=
  let s0 := { s with reflection_counter := s.reflection_counter + 1 }
  if s0.reflection_counter ≥ 3 then
    let s1 := s0.add_message "reflection"
      "Maximum number of reflections reached (3). Moving to final evaluation."
    .ok { s1 with current_node := "final_score" }
  else
    match collab with
    | none => .err s0
    | some r =>
      let s1 := { s0 with reflection_notes := some r }
      let s2 := s1.add_message "reflection"
        ("Reflection " ++ toString s1.reflection_counter ++
          "/3 complete. Requires iteration: " ++ pyBool r.requires_iteration)
      if r.requires_iteration ∧ s2.reflection_counter < 3 then
        if r.questions ≠ [] then
          .ok { s2 with current_node := "technical_feasibility" }
        else
          .ok { s2 with current_node := "operations" }
      else
        .ok { s2 with current_node := "final_score" }

/-- `final_score` (`tools.py` lines 429–495).  Nothing is mutated before the
single collaborator call; on success it records the evaluation, sets
`process_complete := true` and leaves `current_node` untouched. -/
def final_score (s : PackagingEvaluationState) (collab : Option FinalEvaluation) :
    StepResult :=
  match collab with
  | none => .err s
  | some evaluation =>
    let s1 := { s with
      final_evaluation := some evaluation,
      evaluation_score := some (evaluation.feasibility_score : Rat),
      final_recommendation := evaluation.executive_summary,
      process_complete := true }
    let s2 := s1.add_message "final_score"
      ("Final evaluation complete. Score: " ++ toString evaluation.feasibility_score ++
        "/10. Go decision: " ++ pyBool evaluation.go_decision)
    .ok s2

/-- Target of a routing decision: either a node name or langgraph's `END`
sentinel (`graph.py`). -/
inductive RouteTarget where
  | node (name : String)
  | END
deriving DecidableEq

/-- The conditional router (`graph.py` lines 29–34), literally: it returns
`END` when `process_complete` and otherwise returns `state.current_node`
unchanged (the `awaiting_human_input` branch returns the same value as the
fall-through).  It consults no table and has no failure case. -/
def router (s : PackagingEvaluationState) : RouteTarget :=
  if s.process_complete then .END
  else if s.awaiting_human_input then .node s.current_node
  else .node s.current_node

/-- Allowed-next sets of each step, from the `add_conditional_edges` path
maps in `graph.py` lines 37–103. -/
def allowedNext (step : String) : List RouteTarget :=
  if step = "image_analyzer" then [.node "concept_breaker"]
  else if step = "concept_breaker" then [.node "human_feedback"]
  else if step = "human_feedback" then [.node "human_feedback", .node "process_feedback"]
  else if step = "process_feedback" then [.node "concept_breaker", .node "technical_feasibility"]
  else if step = "technical_feasibility" then [.node "operations"]
  else if step = "operations" then [.node "reflection"]
  else if step = "reflection" then
    [.node "technical_feasibility", .node "operations", .node "final_score"]
  else if step = "final_score" then [.END]
  else []

/-- Entry point of the graph definition (`graph.py` line 106),
unconditional. -/
def entry_point : String := "image_analyzer"

/-- Collaborator outcomes offered to one driver-loop iteration: for each
artifact-producing handler, the structured result its `ainvoke` call would
return (`none` models the call raising). -/
structure Collab where
  image : Option ImageAnalysis := none
  components : Option (List Component) := none
  technical : Option TechnicalAssessment := none
  operational : Option OperationalAssessment := none
  reflect : Option ReflectionNotes := none
  final : Option FinalEvaluation := none

/-- One dispatch of the driver loop body (`api.py` lines 50–67): the handler
matching `current_node` is invoked; an unknown node yields `none` (the
`HTTPException(status_code=400, ...)` branch).  No allowed-next validation of
any kind is performed. -/
def runStep (s : PackagingEvaluationState) (c : Collab) : Option StepResult :=
  if s.current_node = "image_analyzer" then some (image_analysis s c.image)
  else if s.current_node = "concept_breaker" then some (concept_breaker s c.components)
  else if s.current_node = "human_feedback" then some (human_feedback s)
  else if s.current_node = "process_feedback" then some (process_feedback s)
  else if s.current_node = "technical_feasibility" then some (technical_feasibility s c.technical)
  else if s.current_node = "operations" then some (operations s c.operational)
  else if s.current_node = "reflection" then some (reflection s c.reflect)
  else if s.current_node = "final_score" then some (final_score s c.final)
  else none

/-- The step names the driver loop dispatches on (`api.py` lines 50–65). -/
def knownNodes : List String :=
  ["image_analyzer", "concept_breaker", "human_feedback", "process_feedback",
   "technical_feasibility", "operations", "reflection", "final_score"]

/-- Why a driver-loop invocation failed: the `HTTPException(400)` unknown-node
branch, or a handler exception propagating to the `except` clause
(`HTTPException(500)`). -/
inductive DriverError where
  | unknown_node
  | step_exception
deriving DecidableEq

/-- Outcome of one driver-loop invocation.  `done` is the normal return (loop
condition false: completed or awaiting human input); `failed` carries the
record as it stands when the exception escapes; `out_of_fuel` is the
artificial bound needed to make the `while` loop a total function. -/
inductive DriverResult where
  | done (s : PackagingEvaluationState)
  | failed (e : DriverError) (s : PackagingEvaluationState)
  | out_of_fuel (s : PackagingEvaluationState)
deriving DecidableEq

/-- Whether the invocation ended in an error. -/
def DriverResult.isFailed : DriverResult → Bool
  | .failed _ _ => true
  | _ => false

/-- The `while not state.process_complete and not state.awaiting_human_input`
loop of `evaluate_packaging` (`api.py` lines 49–67).  `oracle i` supplies the
collaborator outcomes of the `i`-th iteration. -/
def driverLoop : Nat → (Nat → Collab) → Nat → PackagingEvaluationState → DriverResult
  | fuel, oracle, i, s =>
    if s.process_complete || s.awaiting_human_input then .done s
    else
      match fuel with
      | 0 => .out_of_fuel s
      | fuel' + 1 =>
        match runStep s (oracle i) with
        | none => .failed .unknown_node s
        | some (.err s') => .failed .step_exception s'
        | some (.ok s') => driverLoop fuel' oracle (i + 1) s'

/-- `evaluate_packaging` (`api.py` lines 40–74): build the initial record from
the request and run the driver loop. -/
def evaluate_packaging (fuel : Nat) (oracle : Nat → Collab)
    (packaging_concept : String) (concept_images : List String) : DriverResult :=
  driverLoop fuel oracle 0 (mkState packaging_concept concept_images)

/-- States observable during executions of the driver loop: the initial
record, everything reachable through handler runs (normal or raising), and —
modelled from the spec, since `api.py`'s `submit_feedback` endpoint is a stub
— the out-of-band attachment of user feedback to a parked record. -/
inductive Reach (concept : String) (images : List String) :
    PackagingEvaluationState → Prop
  | init : Reach concept images (mkState concept images)
  | step (s : PackagingEvaluationState) (c : Collab) (res : StepResult) :
      Reach concept images s → runStep s c = some res →
      Reach concept images (resultState res)
  | feedback (s : PackagingEvaluationState) (fb : UserFeedback) :
      Reach concept images s →
      Reach concept images { s with user_feedback := some fb }

/-- The inductive invariant behind the reflection bound: the counter never
passes 3, and while the record is anywhere but `final_score` it is at most
2. -/
def Inv (s : PackagingEvaluationState) : Prop :=
  s.reflection_counter ≤ 3 ∧
    (s.current_node ≠ "final_score" → s.reflection_counter ≤ 2)

/-- An oracle whose collaborator calls all fail (every artifact `none`). -/
def emptyOracle : Nat → Collab := fun _ => {}

/-- Concrete user feedback used to exercise the human-feedback gate. -/
def c3fb : UserFeedback := ⟨true, [], []⟩

/-- A record parked at `human_feedback` with feedback attached out of band. -/
def c3state : PackagingEvaluationState :=
  { mkState "box" [] with
    current_node := "human_feedback"
    awaiting_human_input := true
    user_feedback := some c3fb }

/-- A record whose declared next step, `reflection`, is outside
`allowedNext "image_analyzer"`. -/
def c4state : PackagingEvaluationState :=
  { mkState "box" [] with current_node := "reflection" }

/-- Reflection notes reporting no further iteration needed. -/
def c4notes : ReflectionNotes := ⟨[], [], false, "", true, 1⟩

/-- A concrete final evaluation artifact. -/
def c4final : FinalEvaluation := ⟨7, "", "", [], [], [], true, [], "ok"⟩

/-- Oracle supplying successful reflection and final-score artifacts. -/
def c4oracle : Nat → Collab := fun _ => { reflect := some c4notes, final := some c4final }

/-- A record whose `current_node` is not a registered step name. -/
def c4bogus : PackagingEvaluationState :=
  { mkState "box" [] with current_node := "bogus" }

/-- A record about to run the reflection step for the first time. -/
def c5state : PackagingEvaluationState :=
  { mkState "box" [] with current_node := "reflection" }

/-- A record constructed with one concept image. -/
def c5wstate : PackagingEvaluationState := mkState "box" ["img1"]

/-- Reflection notes requiring iteration with one open question. -/
def c6notes : ReflectionNotes := ⟨[], ["open question"], true, "", false, 1⟩

/-- Rejecting user feedback with a suggested change. -/
def c7fb : UserFeedback := ⟨false, ["note"], ["change material"]⟩

/-- A record at `process_feedback` carrying rejecting feedback. -/
def c7state : PackagingEvaluationState :=
  { mkState "box" [] with current_node := "process_feedback", user_feedback := some c7fb }

/-- A record at `process_feedback` with no feedback recorded. -/
def c8state : PackagingEvaluationState :=
  { mkState "box" [] with current_node := "process_feedback" }

/-- A completed record. -/
def c9state : PackagingEvaluationState :=
  { mkState "box" [] with process_complete := true }

/-- A concrete image-analysis artifact. -/
def c10analysis : ImageAnalysis := ⟨[], [], [], [], ""⟩

theorem inv_of_le {s : PackagingEvaluationState} (h : s.reflection_counter ≤ 2) :
    Inv s :=
  ⟨by omega, fun _ => h⟩

theorem inv_of_final {s : PackagingEvaluationState} (h3 : s.reflection_counter ≤ 3)
    (hn : s.current_node = "final_score") : Inv s :=
  ⟨h3, fun hne => absurd hn hne⟩

theorem inv_preserved (s : PackagingEvaluationState) (c : Collab) (res : StepResult)
    (hs : Inv s) (h : runStep s c = some res) : Inv (resultState res) := by
  obtain ⟨hs1, hs2⟩ := hs
  unfold runStep at h
  split_ifs at h with h1 h2 h3 h4 h5 h6 h7 h8
  · -- image_analyzer
    have hc : s.reflection_counter ≤ 2 := hs2 (by rw [h1]; decide)
    injection h with h
    subst h
    by_cases hemp : s.concept_images = []
    · apply inv_of_le
      simp [image_analysis, hemp, resultState]
      omega
    · cases hI : c.image with
      | none =>
        apply inv_of_le
        simp [image_analysis, hemp, hI, resultState]
        omega
      | some a =>
        apply inv_of_le
        simp [image_analysis, hemp, hI, resultState, PackagingEvaluationState.add_message]
        omega
  · -- concept_breaker
    have hc : s.reflection_counter ≤ 2 := hs2 (by rw [h2]; decide)
    injection h with h
    subst h
    cases hC : c.components with
    | none =>
      apply inv_of_le
      simp [concept_breaker, hC, resultState]
      omega
    | some comps =>
      apply inv_of_le
      simp [concept_breaker, hC, resultState, PackagingEvaluationState.add_message]
      omega
  · -- human_feedback
    have hc : s.reflection_counter ≤ 2 := hs2 (by rw [h3]; decide)
    injection h with h
    subst h
    cases hf : s.user_feedback with
    | none =>
      apply inv_of_le
      simp [human_feedback, hf, resultState, PackagingEvaluationState.add_message]
      omega
    | some fb =>
      apply inv_of_le
      simp [human_feedback, hf, resultState]
      omega
  · -- process_feedback
    have hc : s.reflection_counter ≤ 2 := hs2 (by rw [h4]; decide)
    injection h with h
    subst h
    cases hf : s.user_feedback with
    | none =>
      apply inv_of_le
      simp [process_feedback, hf, resultState]
      omega
    | some fb =>
      apply inv_of_le
      rcases fb with ⟨ic, fn, sc⟩
      cases ic <;>
        simp [process_feedback, hf, resultState, PackagingEvaluationState.add_message] <;>
        omega
  · -- technical_feasibility
    have hc : s.reflection_counter ≤ 2 := hs2 (by rw [h5]; decide)
    injection h with h
    subst h
    cases hT : c.technical with
    | none =>
      apply inv_of_le
      simp [technical_feasibility, hT, resultState]
      omega
    | some a =>
      apply inv_of_le
      simp [technical_feasibility, hT, resultState, PackagingEvaluationState.add_message]
      omega
  · -- operations
    have hc : s.reflection_counter ≤ 2 := hs2 (by rw [h6]; decide)
    injection h with h
    subst h
    cases hO : c.operational with
    | none =>
      apply inv_of_le
      simp [operations, hO, resultState]
      omega
    | some a =>
      apply inv_of_le
      simp [operations, hO, resultState, PackagingEvaluationState.add_message]
      omega
  · -- reflection
    have hc : s.reflection_counter ≤ 2 := hs2 (by rw [h7]; decide)
    injection h with h
    subst h
    by_cases hge : s.reflection_counter + 1 ≥ 3
    · apply inv_of_final
      · simp [reflection, hge, resultState, PackagingEvaluationState.add_message]
        omega
      · simp [reflection, hge, resultState, PackagingEvaluationState.add_message]
    · have hlt : s.reflection_counter + 1 < 3 := by omega
      cases hR : c.reflect with
      | none =>
        apply inv_of_le
        simp [reflection, hge, hR, resultState]
        omega
      | some r =>
        apply inv_of_le
        rcases r with ⟨bs, qs, ri, rsum, ap, itc⟩
        cases ri with
        | false =>
          simp [reflection, hge, hR, resultState, PackagingEvaluationState.add_message]
          omega
        | true =>
          cases qs with
          | nil =>
            simp [reflection, hge, hR, hlt, resultState,
              PackagingEvaluationState.add_message]
            omega
          | cons q qt =>
            simp [reflection, hge, hR, hlt, resultState,
              PackagingEvaluationState.add_message]
            omega
  · -- final_score
    injection h with h
    subst h
    cases hF : c.final with
    | none =>
      simp only [final_score, hF, resultState]
      exact ⟨hs1, hs2⟩
    | some e =>
      have hcnt : (resultState (final_score s (some e))).reflection_counter =
          s.reflection_counter := by
        simp [final_score, resultState, PackagingEvaluationState.add_message]
      have hn : (resultState (final_score s (some e))).current_node =
          s.current_node := by
        simp [final_score, resultState, PackagingEvaluationState.add_message]
      refine ⟨?_, fun hne => ?_⟩
      · rw [hcnt]; exact hs1
      · rw [hn] at hne
        rw [hcnt]
        exact hs2 hne

theorem reach_inv (concept : String) (images : List String)
    (s : PackagingEvaluationState) (h : Reach concept images s) : Inv s := by
  induction h with
  | init => exact ⟨Nat.zero_le 3, fun _ => Nat.zero_le 2⟩
  | step s c res _ hrun ih => exact inv_preserved s c res ih hrun
  | feedback s fb _ ih => exact ⟨ih.1, fun hne => ih.2 hne⟩

theorem runStep_eq_none (s : PackagingEvaluationState) (c : Collab)
    (hn : s.current_node ∉ knownNodes) : runStep s c = none := by
  unfold runStep
  split_ifs with h1 h2 h3 h4 h5 h6 h7 h8
  · exact absurd (by rw [h1]; decide) hn
  · exact absurd (by rw [h2]; decide) hn
  · exact absurd (by rw [h3]; decide) hn
  · exact absurd (by rw [h4]; decide) hn
  · exact absurd (by rw [h5]; decide) hn
  · exact absurd (by rw [h6]; decide) hn
  · exact absurd (by rw [h7]; decide) hn
  · exact absurd (by rw [h8]; decide) hn
  · rfl

/-- C1: Bounded reflection: along every execution of the driver loop from an
initial record (including out-of-band feedback attachment), the reflection
counter never exceeds 3 before `final_score` is entered; the reflection step
increments `reflection_counter` on every entry, before consulting any
collaborator (visible even when the collaborator raises); and a reflection
run whose counter has reached the ceiling routes unconditionally to
`final_score` without consulting the collaborator, whatever the
collaborator's `requires_iteration` flag would have said. -/
theorem C1_bounded_reflection :
    (∀ concept images s, Reach concept images s → s.reflection_counter ≤ 3) ∧
    (∀ (s : PackagingEvaluationState) (collab : Option ReflectionNotes),
        (resultState (reflection s collab)).reflection_counter =
          s.reflection_counter + 1) ∧
    (∀ (s : PackagingEvaluationState) (collab : Option ReflectionNotes),
        3 ≤ s.reflection_counter + 1 →
        reflection s collab = reflection s none ∧
        ∃ s', reflection s collab = .ok s' ∧ s'.current_node = "final_score") := by
  refine ⟨fun concept images s h => (reach_inv concept images s h).1, ?_, ?_⟩
  · intro s collab
    by_cases hge : s.reflection_counter + 1 ≥ 3
    · simp [reflection, hge, resultState, PackagingEvaluationState.add_message]
    · cases collab with
      | none => simp [reflection, hge, resultState]
      | some r =>
        have hlt : s.reflection_counter + 1 < 3 := by omega
        rcases r with ⟨bs, qs, ri, rsum, ap, itc⟩
        cases ri with
        | false =>
          simp [reflection, hge, resultState, PackagingEvaluationState.add_message]
        | true =>
          cases qs <;>
            simp [reflection, hge, hlt, resultState,
              PackagingEvaluationState.add_message]
  · intro s collab hge3
    have hge : s.reflection_counter + 1 ≥ 3 := hge3
    constructor
    · simp [reflection, hge]
    · simp [reflection, hge]

/-- C2 (code behavior at the failing input): a record constructed with an
empty concept-image list nevertheless has `current_node = "image_analyzer"`
— the class-body conditional default in `state.py` line 89 is evaluated
against the truthy pydantic `FieldInfo`, never against the instance's list —
and the `image_analysis` handler is then executed and short-circuits to
`concept_breaker`, rather than image analysis being skipped entirely. -/
theorem C2_initial_node_always_image_analyzer :
    (mkState "simple box" []).current_node = "image_analyzer" ∧
    image_analysis (mkState "simple box" []) none =
      .ok { mkState "simple box" [] with current_node := "concept_breaker" } := by
  refine ⟨rfl, ?_⟩
  decide

/-- C3 (code behavior at the failing input): invoking `human_feedback` on a
record with `user_feedback` present routes to `process_feedback` but leaves
`awaiting_human_input` set — no line of the repository ever clears it — so
the resulting record has `awaiting_human_input = true` while not parked at
the feedback step and while `user_feedback` is present. -/
theorem C3_awaiting_never_cleared :
    human_feedback c3state = .ok { c3state with current_node := "process_feedback" } ∧
    (resultState (human_feedback c3state)).awaiting_human_input = true ∧
    (resultState (human_feedback c3state)).current_node = "process_feedback" ∧
    (resultState (human_feedback c3state)).user_feedback = some c3fb := by
  refine ⟨by decide, by decide, by decide, by decide⟩

/-- C4 counterexample: a record whose declared next step (`reflection`) lies
outside the allowed-next set of the step that just ran (`image_analyzer`)
causes no error at that transition: the router returns the value unchanged
and the driver loop executes it and runs to normal completion. -/
theorem C4_counterexample :
    router c4state = .node "reflection" ∧
    RouteTarget.node "reflection" ∉ allowedNext "image_analyzer" ∧
    (driverLoop 3 c4oracle 0 c4state).isFailed = false ∧
    (∃ s', driverLoop 3 c4oracle 0 c4state = .done s') := by
  refine ⟨rfl, by decide, rfl, ⟨_, rfl⟩⟩

/-- C4 (amended): the Router performs no membership assertion: whenever
`process_complete` is false it returns `current_node` unchanged (never
correcting it), and when `process_complete` is true it returns `END`; the
driver loop raises a fatal error only when `current_node` is not a
registered step name at all. -/
theorem C4_router_reads_without_validation :
    (∀ s : PackagingEvaluationState, s.process_complete = false →
        router s = .node s.current_node) ∧
    (∀ s : PackagingEvaluationState, s.process_complete = true → router s = .END) ∧
    (∀ (fuel : Nat) (oracle : Nat → Collab) (i : Nat) (s : PackagingEvaluationState),
        s.process_complete = false → s.awaiting_human_input = false →
        s.current_node ∉ knownNodes →
        driverLoop (fuel + 1) oracle i s = .failed .unknown_node s) := by
  refine ⟨?_, ?_, ?_⟩
  · intro s h
    simp [router, h]
  · intro s h
    simp [router, h]
  · intro fuel oracle i s hpc hah hn
    rw [driverLoop]
    simp [hpc, hah, runStep_eq_none s (oracle i) hn]

/-- C4 witness: the amended router/driver behavior at concrete records. -/
theorem C4_witness :
    (c4state.process_complete = false ∧ router c4state = .node c4state.current_node) ∧
    (c9state.process_complete = true ∧ router c9state = .END) ∧
    (c4bogus.process_complete = false ∧ c4bogus.awaiting_human_input = false ∧
      c4bogus.current_node ∉ knownNodes ∧
      driverLoop 1 emptyOracle 0 c4bogus = .failed .unknown_node c4bogus) :=
  ⟨⟨rfl, C4_router_reads_without_validation.1 c4state rfl⟩,
   ⟨rfl, C4_router_reads_without_validation.2.1 c9state rfl⟩,
   ⟨rfl, rfl, by decide,
    C4_router_reads_without_validation.2.2 0 emptyOracle 0 c4bogus rfl rfl (by decide)⟩⟩

/-- C1 witness: the bound at the initial record, the increment at a concrete
record, and ceiling routing at a record whose counter is 3, with a
collaborator that would have demanded iteration. -/
theorem C1_witness :
    (mkState "box" []).reflection_counter ≤ 3 ∧
    (resultState (reflection (mkState "box" []) none)).reflection_counter =
      (mkState "box" []).reflection_counter + 1 ∧
    (3 ≤ ({ mkState "box" [] with reflection_counter := 3 } :
        PackagingEvaluationState).reflection_counter + 1 ∧
      ∃ s', reflection ({ mkState "box" [] with reflection_counter := 3 })
          (some c6notes) = .ok s' ∧ s'.current_node = "final_score") :=
  ⟨C1_bounded_reflection.1 "box" [] _ Reach.init,
   C1_bounded_reflection.2.1 (mkState "box" []) none,
   by decide,
   (C1_bounded_reflection.2.2 _ (some c6notes) (by decide)).2⟩

/-- C5 counterexample: a collaborator failure inside the reflection step does
not leave the record as it was — `reflection_counter` has already been
incremented when the exception escapes. -/
theorem C5_counterexample :
    reflection c5state none = .err { c5state with reflection_counter := 1 } ∧
    ({ c5state with reflection_counter := 1 } : PackagingEvaluationState) ≠ c5state := by
  refine ⟨by decide, by decide⟩

/-- C5 (amended): every handler that calls a collaborator leaves the record
exactly unchanged when that call fails — `image_analysis` (with images
present), `concept_breaker`, `technical_feasibility`, `operations`,
`final_score` — except `reflection`, which increments `reflection_counter`
before the call and therefore leaves the counter incremented by one (all
other fields unchanged) when the call fails below the ceiling.  In
particular a collaborator failure inside `technical_feasibility` leaves
`technical_assessment` and `current_node` (and every other field) exactly as
they were. -/
theorem C5_atomic_step_except_reflection :
    ∀ s : PackagingEvaluationState,
      (s.concept_images ≠ [] → image_analysis s none = .err s) ∧
      concept_breaker s none = .err s ∧
      technical_feasibility s none = .err s ∧
      operations s none = .err s ∧
      final_score s none = .err s ∧
      (s.reflection_counter + 1 < 3 →
        reflection s none = .err { s with reflection_counter := s.reflection_counter + 1 }) := by
  intro s
  refine ⟨fun hne => ?_, rfl, rfl, rfl, rfl, fun hlt => ?_⟩
  · simp [image_analysis, hne]
  · simp [reflection, show ¬ s.reflection_counter + 1 ≥ 3 by omega]

/-- C5 witness: the atomic failure at a record with an image, and the
reflection failure at a first-time reflection record. -/
theorem C5_witness :
    (c5wstate.concept_images ≠ [] ∧ image_analysis c5wstate none = .err c5wstate) ∧
    technical_feasibility c5wstate none = .err c5wstate ∧
    (c5state.reflection_counter + 1 < 3 ∧
      reflection c5state none =
        .err { c5state with reflection_counter := c5state.reflection_counter + 1 }) :=
  ⟨⟨by decide, (C5_atomic_step_except_reflection c5wstate).1 (by decide)⟩,
   (C5_atomic_step_except_reflection c5wstate).2.2.1,
   by decide,
   (C5_atomic_step_except_reflection c5state).2.2.2.2.2 (by decide)⟩

/-- C6: below the ceiling, reflection routes to `technical_feasibility` when
the collaborator requires iteration and raised at least one open question,
to `operations` when it requires iteration with no open questions, and to
`final_score` otherwise. -/
theorem C6_below_ceiling_routing :
    ∀ (s : PackagingEvaluationState) (r : ReflectionNotes),
      s.reflection_counter + 1 < 3 →
      (reflection s (some r)).isOk = true ∧
      (resultState (reflection s (some r))).current_node =
        (if r.requires_iteration then
          (if r.questions ≠ [] then "technical_feasibility" else "operations")
        else "final_score") := by
  intro s r hlt
  have hge : ¬ s.reflection_counter + 1 ≥ 3 := by omega
  rcases r with ⟨bs, qs, ri, rsum, ap, itc⟩
  cases ri with
  | false =>
    simp [reflection, hge, resultState, StepResult.isOk,
      PackagingEvaluationState.add_message]
  | true =>
    cases qs <;>
      simp [reflection, hge, hlt, resultState, StepResult.isOk,
        PackagingEvaluationState.add_message]

/-- C6 witness: a first-time reflection whose collaborator requires
iteration with one open question routes to `technical_feasibility`. -/
theorem C6_witness :
    (mkState "box" []).reflection_counter + 1 < 3 ∧
    (reflection (mkState "box" []) (some c6notes)).isOk = true ∧
    (resultState (reflection (mkState "box" []) (some c6notes))).current_node =
      (if c6notes.requires_iteration then
        (if c6notes.questions ≠ [] then "technical_feasibility" else "operations")
      else "final_score") :=
  ⟨by decide,
   (C6_below_ceiling_routing (mkState "box" []) c6notes (by decide)).1,
   (C6_below_ceiling_routing (mkState "box" []) c6notes (by decide)).2⟩

/-- C7: whenever `process_feedback` executes with feedback present, the
resulting record has `user_feedback = none` in both branches, and it routes
to `concept_breaker` on reject (`is_correct = false`) and to
`technical_feasibility` on accept (`is_correct = true`). -/
theorem C7_feedback_cleared_and_routed :
    ∀ (s : PackagingEvaluationState) (fb : UserFeedback),
      s.user_feedback = some fb →
      (process_feedback s).isOk = true ∧
      (resultState (process_feedback s)).user_feedback = none ∧
      (resultState (process_feedback s)).current_node =
        (if fb.is_correct then "technical_feasibility" else "concept_breaker") := by
  intro s fb hf
  rcases fb with ⟨ic, fn, sc⟩
  cases ic <;>
    simp [process_feedback, hf, resultState, StepResult.isOk,
      PackagingEvaluationState.add_message]

/-- C7 witness: rejecting feedback is cleared and routes to
`concept_breaker`. -/
theorem C7_witness :
    c7state.user_feedback = some c7fb ∧
    (process_feedback c7state).isOk = true ∧
    (resultState (process_feedback c7state)).user_feedback = none ∧
    (resultState (process_feedback c7state)).current_node =
      (if c7fb.is_correct then "technical_feasibility" else "concept_breaker") :=
  ⟨rfl,
   (C7_feedback_cleared_and_routed c7state c7fb rfl).1,
   (C7_feedback_cleared_and_routed c7state c7fb rfl).2.1,
   (C7_feedback_cleared_and_routed c7state c7fb rfl).2.2⟩

/-- C8: `process_feedback` fails exactly when `user_feedback` is absent; the
failure leaves the record untouched, and inside the driver loop it is
surfaced as a failed invocation, not swallowed. -/
theorem C8_missing_feedback_error :
    (∀ s : PackagingEvaluationState,
      ((process_feedback s).isOk = false ↔ s.user_feedback = none) ∧
      (s.user_feedback = none → process_feedback s = .err s)) ∧
    (∀ (fuel : Nat) (oracle : Nat → Collab) (i : Nat) (s : PackagingEvaluationState),
      s.current_node = "process_feedback" → s.process_complete = false →
      s.awaiting_human_input = false → s.user_feedback = none →
      driverLoop (fuel + 1) oracle i s = .failed .step_exception s) := by
  constructor
  · intro s
    cases hf : s.user_feedback with
    | none =>
      exact ⟨by simp [process_feedback, hf, StepResult.isOk],
             fun _ => by simp [process_feedback, hf]⟩
    | some fb =>
      rcases fb with ⟨ic, fn, sc⟩
      cases ic <;> simp [process_feedback, hf, StepResult.isOk]
  · intro fuel oracle i s hnode hpc hah hf
    rw [driverLoop]
    simp [hpc, hah, runStep, hnode, process_feedback, hf]

/-- C8 witness: at a record parked at `process_feedback` with no feedback,
the handler fails leaving the record unchanged and the driver loop surfaces
the failure. -/
theorem C8_witness :
    ((process_feedback c8state).isOk = false ↔ c8state.user_feedback = none) ∧
    (c8state.user_feedback = none ∧ process_feedback c8state = .err c8state) ∧
    (c8state.current_node = "process_feedback" ∧
      driverLoop 1 emptyOracle 0 c8state = .failed .step_exception c8state) :=
  ⟨(C8_missing_feedback_error.1 c8state).1,
   ⟨rfl, (C8_missing_feedback_error.1 c8state).2 rfl⟩,
   ⟨rfl, C8_missing_feedback_error.2 0 emptyOracle 0 c8state rfl rfl rfl rfl⟩⟩

/-- C9: invoking the driver loop on a record with `process_complete = true`
returns the identical record with no step executed (for every fuel and
oracle, including fuel 0); once `final_score` executes successfully the
resulting record has `process_complete = true`, `current_node` unchanged,
and every subsequent loop invocation returns it unchanged. -/
theorem C9_idempotent_completion_and_terminality :
    (∀ (fuel : Nat) (oracle : Nat → Collab) (i : Nat) (s : PackagingEvaluationState),
        s.process_complete = true → driverLoop fuel oracle i s = .done s) ∧
    (∀ (s : PackagingEvaluationState) (e : FinalEvaluation),
        (final_score s (some e)).isOk = true ∧
        (resultState (final_score s (some e))).process_complete = true ∧
        (resultState (final_score s (some e))).current_node = s.current_node) ∧
    (∀ (fuel : Nat) (oracle : Nat → Collab) (i : Nat) (s : PackagingEvaluationState)
        (e : FinalEvaluation),
        driverLoop fuel oracle i (resultState (final_score s (some e))) =
          .done (resultState (final_score s (some e)))) := by
  have hdone : ∀ (fuel : Nat) (oracle : Nat → Collab) (i : Nat)
      (s : PackagingEvaluationState),
      s.process_complete = true → driverLoop fuel oracle i s = .done s := by
    intro fuel oracle i s h
    rw [driverLoop.eq_def]
    simp [h]
  refine ⟨hdone, fun s e => ⟨rfl, rfl, rfl⟩, fun fuel oracle i s e => ?_⟩
  exact hdone fuel oracle i _ rfl

/-- C9 witness: the loop is a no-op on a completed record, and `final_score`
at a concrete record completes it terminally. -/
theorem C9_witness :
    (c9state.process_complete = true ∧
      driverLoop 4 emptyOracle 0 c9state = .done c9state) ∧
    (final_score (mkState "box" []) (some c4final)).isOk = true ∧
    (resultState (final_score (mkState "box" []) (some c4final))).process_complete = true ∧
    driverLoop 2 emptyOracle 0 (resultState (final_score (mkState "box" []) (some c4final))) =
      .done (resultState (final_score (mkState "box" []) (some c4final))) :=
  ⟨⟨rfl, C9_idempotent_completion_and_terminality.1 4 emptyOracle 0 c9state rfl⟩,
   (C9_idempotent_completion_and_terminality.2.1 (mkState "box" []) c4final).1,
   (C9_idempotent_completion_and_terminality.2.1 (mkState "box" []) c4final).2.1,
   C9_idempotent_completion_and_terminality.2.2 2 emptyOracle 0 (mkState "box" []) c4final⟩

/-- C10: for every record whose concept-image list is empty, the
`image_analysis` handler returns the record with `current_node` set to
`concept_breaker` and every other field unchanged — no message appended,
`image_analysis` left as it was, and the result is the same whatever the
collaborator would have answered (no collaborator call). -/
theorem C10_image_skip_frame :
    ∀ (s : PackagingEvaluationState) (collab : Option ImageAnalysis),
      s.concept_images = [] →
      image_analysis s collab = .ok { s with current_node := "concept_breaker" } := by
  intro s collab h
  simp [image_analysis, h]

/-- C10 witness: at the concrete empty-image record, with a collaborator
answer that is ignored. -/
theorem C10_witness :
    (mkState "box" []).concept_images = [] ∧
    image_analysis (mkState "box" []) (some c10analysis) =
      .ok { mkState "box" [] with current_node := "concept_breaker" } :=
  ⟨rfl, C10_image_skip_frame (mkState "box" []) (some c10analysis) rfl⟩

end PackagingEval
